import Mathlib

/-!
Verification development for the assist_reader repository.

The repository fetches articulation and general-education transferability
data from the ASSIST API and writes normalized JSON snapshots.  The
response-to-schema transformation logic is embedded here shallowly:

* `src/IGETC.py` (and its near-duplicate `src/calgetc.py`): the helper
  `is_currently_approved` and the GE-list transformer `get_csu_ge_courses`.
* `src/make_simple_transfers.py`: the articulation fetcher `fetch_api_data`,
  the transformer `get_transfer_data`, and the entry point `main`.
* `src/get_institutions.py`: the institution-directory transformer.

Python dictionaries become Lean structures: a field read with bracket
access in the source is a required field, a field read with `dict.get`
is an `Option` field.  JSON null and key absence are distinguished only
where the code or a property distinguishes them.  The ambient wall clock
read by `datetime.utcnow()` is threaded as an explicit `DateTime`
argument: one value per reading.
-/

/-- The clock fields of a datetime value, as produced by
`datetime.fromisoformat` and by `datetime.utcnow()` in the source.
Whether a parsed value is naive or offset-aware is carried separately in
`ParsedDateTime`; `utcnow()` always yields a naive value. -/
structure DateTime where
  year : Nat
  month : Nat
  day : Nat
  hour : Nat
  minute : Nat
  second : Nat
  microsecond : Nat
deriving DecidableEq

/-- Injective monotone key for comparing valid datetimes: field ranges
(month below 13, day below 32, hour below 24, minute and second below 60,
microsecond below 1000000) make the mixed-radix encoding order-preserving. -/
def DateTime.key (d : DateTime) : Nat :=
  (((((d.year * 13 + d.month) * 32 + d.day) * 24 + d.hour) * 60 + d.minute)
      * 60 + d.second) * 1000000 + d.microsecond

/-- Comparison `a < b` on datetimes, modelling the Python `>` comparison
on `datetime` objects (with arguments flipped). -/
def DateTime.lt (a b : DateTime) : Bool :=
  a.key < b.key

/-- Numeric value of a decimal digit character, or `none`. -/
def digitVal (c : Char) : Option Nat :=
  if c.isDigit then some (c.toNat - '0'.toNat) else none

/-- Two-digit decimal field. -/
def parse2 (a b : Char) : Option Nat := do
  let x ← digitVal a
  let y ← digitVal b
  pure (x * 10 + y)

/-- Four-digit decimal field. -/
def parse4 (a b c d : Char) : Option Nat := do
  let x ← parse2 a b
  let y ← parse2 c d
  pure (x * 100 + y)

/-- Gregorian leap-year rule. -/
def isLeap (y : Nat) : Bool :=
  y % 4 = 0 && (y % 100 != 0 || y % 400 = 0)

/-- Number of days in a month, as validated by the Python datetime
constructor. -/
def daysInMonth (y m : Nat) : Nat :=
  if m = 2 then (if isLeap y then 29 else 28)
  else if m = 4 || m = 6 || m = 9 || m = 11 then 30
  else 31

/-- Build a validated datetime, enforcing the range checks the Python
datetime constructor performs. -/
def mkValidDateTime (y mo d hh mi ss us : Nat) : Option DateTime :=
  if 1 ≤ y && y ≤ 9999 && 1 ≤ mo && mo ≤ 12 && 1 ≤ d && d ≤ daysInMonth y mo
      && hh ≤ 23 && mi ≤ 59 && ss ≤ 59 && us ≤ 999999 then
    some ⟨y, mo, d, hh, mi, ss, us⟩
  else
    none

/-- Hour, minute, second and microsecond fields of a time string
HH[:MM[:SS[.fff[fff]]]], before range validation, as parsed by the
CPython helper the 3.9 `fromisoformat` uses for both the time of day and
the offset digits. -/
structure TimeComps where
  hh : Nat
  mi : Nat
  ss : Nat
  us : Nat
deriving DecidableEq

/-- Parse of HH, HH:MM, HH:MM:SS, HH:MM:SS.fff, or HH:MM:SS.ffffff
(fractions of exactly 3 or 6 digits), without range checks. -/
def parse_hh_mm_ss_ff (l : List Char) : Option TimeComps :=
  match l with
  | [h1, h2] => do
    let hh ← parse2 h1 h2
    pure ⟨hh, 0, 0, 0⟩
  | [h1, h2, ':', n1, n2] => do
    let hh ← parse2 h1 h2
    let mi ← parse2 n1 n2
    pure ⟨hh, mi, 0, 0⟩
  | [h1, h2, ':', n1, n2, ':', s1, s2] => do
    let hh ← parse2 h1 h2
    let mi ← parse2 n1 n2
    let ss ← parse2 s1 s2
    pure ⟨hh, mi, ss, 0⟩
  | [h1, h2, ':', n1, n2, ':', s1, s2, '.', f1, f2, f3] => do
    let hh ← parse2 h1 h2
    let mi ← parse2 n1 n2
    let ss ← parse2 s1 s2
    let a ← digitVal f1
    let b ← digitVal f2
    let c ← digitVal f3
    pure ⟨hh, mi, ss, (a * 100 + b * 10 + c) * 1000⟩
  | [h1, h2, ':', n1, n2, ':', s1, s2, '.', f1, f2, f3, f4, f5, f6] => do
    let hh ← parse2 h1 h2
    let mi ← parse2 n1 n2
    let ss ← parse2 s1 s2
    let a ← parse2 f1 f2
    let b ← parse2 f3 f4
    let c ← parse2 f5 f6
    pure ⟨hh, mi, ss, a * 10000 + b * 100 + c⟩
  | _ => none

/-- Split the time string at the first sign character, the way the
CPython parser locates the start of the offset part. -/
def splitAtSign (l : List Char) : List Char × Option (Char × List Char) :=
  match l with
  | [] => ([], none)
  | c :: t =>
    if c = '+' || c = '-' then ([], some (c, t))
    else
      let (a, r) := splitAtSign t
      (c :: a, r)

/-- Offset part after the sign: the shapes HH:MM, HH:MM:SS, or
HH:MM:SS.ffffff (string lengths 5, 8, 15), turned into signed seconds;
a magnitude of a full day or more fails the timezone range check and is
a parse failure. -/
def parseOffset (sign : Char) (l : List Char) : Option Int :=
  if l.length = 5 || l.length = 8 || l.length = 15 then
    match parse_hh_mm_ss_ff l with
    | some tc =>
      let total : Int := ((tc.hh * 3600 + tc.mi * 60 + tc.ss : Nat) : Int)
      if total < 86400 then some (if sign = '-' then -total else total) else none
    | none => none
  else none

/-- Time-of-day part of the ISO string after the separator character,
with an optional trailing offset introduced by a sign character. -/
def parse_isoformat_time (l : List Char) : Option (TimeComps × Option Int) :=
  match splitAtSign l with
  | (timePart, none) =>
    match parse_hh_mm_ss_ff timePart with
    | some tc => some (tc, none)
    | none => none
  | (timePart, some (sign, tzStr)) =>
    match parse_hh_mm_ss_ff timePart, parseOffset sign tzStr with
    | some tc, some off => some (tc, some off)
    | _, _ => none

/-- A successful parse result: the clock fields plus the UTC offset in
seconds when the string carried one.  `none` is a naive value; `some`
is an offset-aware value, a zero offset included. -/
structure ParsedDateTime where
  dt : DateTime
  offsetSeconds : Option Int
deriving DecidableEq

/-- Model of `datetime.fromisoformat` (Python 3.9): a zero-padded
YYYY-MM-DD date, optionally followed by a single separator character and
a time of day that may itself carry a UTC offset.  Malformed strings
yield `none`, the embedding of the ValueError the Python routine
raises. -/
def datetime_fromisoformat (s : String) : Option ParsedDateTime :=
  match s.data with
  | [y1, y2, y3, y4, '-', m1, m2, '-', d1, d2] => do
    let y ← parse4 y1 y2 y3 y4
    let mo ← parse2 m1 m2
    let d ← parse2 d1 d2
    let dt ← mkValidDateTime y mo d 0 0 0 0
    pure ⟨dt, none⟩
  | y1 :: y2 :: y3 :: y4 :: '-' :: m1 :: m2 :: '-' :: d1 :: d2 :: _sep :: rest => do
    let y ← parse4 y1 y2 y3 y4
    let mo ← parse2 m1 m2
    let d ← parse2 d1 d2
    let (tc, off) ← parse_isoformat_time rest
    let dt ← mkValidDateTime y mo d tc.hh tc.mi tc.ss tc.us
    pure ⟨dt, off⟩
  | _ => none

/-- How a call to the approval rule ends: a returned boolean, or the
TypeError the naive-versus-aware datetime comparison raises, which the
`except ValueError` handler in the source does not catch. -/
inductive ApprovalOutcome where
  | ret (b : Bool)
  | typeError
deriving DecidableEq

/-- Embedding of `is_currently_approved` from `src/IGETC.py` lines 35 to 51
(the copy in `src/calgetc.py` lines 35 to 51 is behaviorally identical).
The `now` argument is the value `datetime.utcnow()` returns at the
internal clock reading the source performs.  A parse failure is the
caught ValueError path; an offset-aware parse result makes the
comparison `end_dt > datetime.utcnow()` raise an uncaught TypeError. -/
def is_currently_approved (end_date_str : Option String) (now : DateTime) :
    ApprovalOutcome :=
  match end_date_str with
  | none => ApprovalOutcome.ret true
  | some s =>
    if s = "" then ApprovalOutcome.ret true
    else
      match datetime_fromisoformat s with
      | some p =>
        match p.offsetSeconds with
        | none => ApprovalOutcome.ret (DateTime.lt now p.dt)
        | some _ => ApprovalOutcome.typeError
      | none => ApprovalOutcome.ret false

/-- Model of Python `str.strip`: drop characters satisfying `p` from both
ends of the string (trailing first, then leading — the two sides are
independent, so the order does not matter). -/
def pyStrip (p : Char → Bool) (s : String) : String :=
  ⟨List.dropWhile p ((List.dropWhile p s.data.reverse).reverse)⟩

/-- Character class stripped by the no-argument Python `str.strip()`. -/
def wsChar (c : Char) : Bool :=
  c.isWhitespace

/-- Character class stripped by `str.strip(" -")`: a space or a hyphen. -/
def spaceOrDash (c : Char) : Bool :=
  c = ' ' || c = '-'

/-- Python `x or ""` coercion on an optional string: absent or null
becomes the empty string. -/
def orEmpty (s : Option String) : String :=
  match s with
  | some v => v
  | none => ""

/-- One entry of the `transferAreas` list of a raw GE course record.  The
`code` field is read with `dict.get`, so it is optional; `none` covers
both an absent key and an explicit null. -/
structure TransferArea where
  code : Option String
deriving DecidableEq

/-- One raw course record of the GE-list endpoint, as read by
`get_csu_ge_courses` in `src/IGETC.py`.  Every field is read with
`dict.get`, so every field is optional; `none` covers absent and null. -/
structure RawCourse where
  identifier : Option String
  courseTitle : Option String
  transferAreas : Option (List TransferArea)
  beginDate : Option String
  beginTermCode : Option String
  endDate : Option String
  endTermCode : Option String
deriving DecidableEq

/-- The `academicYear` object of the raw GE-list document; its `code`
field is read with `dict.get`. -/
structure AcademicYear where
  code : Option String
deriving DecidableEq

/-- The raw GE-list document.  For `courseInformationList` and
`academicYear` the code distinguishes nothing between absence and null
(`or []`, `or {}` respectively), but the outer `Option` is key presence
and the inner `Option` a null value, so both cases are expressible. -/
structure RawDoc where
  courseInformationList : Option (Option (List RawCourse))
  institutionName : Option String
  academicYear : Option (Option AcademicYear)
  listType : Option String
deriving DecidableEq

/-- One normalized course of the GE-list output schema. -/
structure CourseOut where
  course : String
  transferAreas : List String
  approvedDate : Option String
  approvedTerm : Option String
  removedDate : Option String
  removedTerm : Option String
  isCurrentlyApproved : ApprovalOutcome
deriving DecidableEq

/-- The normalized GE-list output document. -/
structure DocOut where
  institutionName : Option String
  academicYear : Option String
  listType : Option String
  courses : List CourseOut
deriving DecidableEq

/-- Loop body of `get_csu_ge_courses` (`src/IGETC.py` lines 70 to 91):
normalization of a single raw course record.  `now` is the clock reading
used by the `is_currently_approved` call. -/
def normalize_course (now : DateTime) (c : RawCourse) : CourseOut :=
  let identifier := pyStrip wsChar (orEmpty c.identifier)
  let title := pyStrip wsChar (orEmpty c.courseTitle)
  let course_name := pyStrip spaceOrDash (identifier ++ " - " ++ title)
  let areaList : List TransferArea :=
    match c.transferAreas with
    | some l => l
    | none => []
  let transfer_areas :=
    areaList.filterMap fun a =>
      match a.code with
      | some s => if s = "" then none else some s
      | none => none
  { course := course_name
  , transferAreas := transfer_areas
  , approvedDate := c.beginDate
  , approvedTerm := c.beginTermCode
  , removedDate := c.endDate
  , removedTerm := c.endTermCode
  , isCurrentlyApproved := is_currently_approved c.endDate now }

/-- Embedding of `get_csu_ge_courses` (`src/IGETC.py` lines 58 to 98)
after the fetch: the response-to-schema transformation.  The raw course
list defaults to empty when the key is absent (`dict.get` default) or its
value is null (`or []`); the `academicYear` object defaults to an empty
object (`or  \x7b\x7d`) whose `code` lookup yields null. -/
def get_csu_ge_courses (now : DateTime) (data : RawDoc) : DocOut :=
  let courseList :=
    match data.courseInformationList with
    | some (some l) => l
    | some none => []
    | none => []
  { institutionName := data.institutionName
  , academicYear :=
      match data.academicYear with
      | some (some ay) => ay.code
      | some none => none
      | none => none
  , listType := data.listType
  , courses := courseList.map (normalize_course now) }

/-- One destination course inside the nested `items` lists of a sending
articulation (`to_course` in the source loop).  The three fields are read
with bracket access, so they are required.  `pfx` models the JSON field
named after the course letters, `prefix` in the wire format. -/
structure DestCourse where
  pfx : String
  courseNumber : String
  courseTitle : String
deriving DecidableEq

/-- One item of `sendingArticulation.items`.  The nested `items` list is
read only after an explicit key-presence test, so it is optional; a
present key with an empty list is `some []`. -/
structure SAItem where
  items : Option (List DestCourse)
deriving DecidableEq

/-- The `sendingArticulation` object.  Its `items` field is read with
`dict.get`, so it is optional; `none` also covers an explicit null. -/
structure SendingArticulation where
  items : Option (List SAItem)
deriving DecidableEq

/-- The `course` object of an articulation entry.  All fields but
`minUnits` are read with bracket access.  `minUnits` is read with
`dict.get` and a default: the outer `Option` is key presence and the
inner `Option` distinguishes a null value from a number. -/
structure CourseInfo where
  pfx : String
  courseNumber : String
  courseTitle : String
  minUnits : Option (Option ℚ)
  department : String
deriving DecidableEq

/-- One articulation entry of a department group.  `type` and `course`
are read with bracket access; `sendingArticulation` is read with
`dict.get` and then tested for truthiness, so `none` covers an absent
key, a null, and an empty object (all falsy in Python). -/
structure ArticulationEntry where
  type : String
  course : CourseInfo
  sendingArticulation : Option SendingArticulation
deriving DecidableEq

/-- One department group of the decoded `articulations` list; its
`articulations` field is read with bracket access. -/
structure DeptGroup where
  articulations : List ArticulationEntry
deriving DecidableEq

/-- The `units` value of an emitted transfer entry: either the source
value passed through (a number, or null) or the literal string default
the source supplies to `dict.get`. -/
inductive PyUnits where
  | uval (v : Option ℚ)
  | na
deriving DecidableEq

/-- One emitted transfer entry of the normalized articulation schema. -/
structure TransferOut where
  from_course : String
  course_title : String
  units : PyUnits
  department : String
  transfers_to : List String
deriving DecidableEq

/-- Destination-course string `"PREFIX NUMBER: TITLE"` built in the inner
loop of `get_transfer_data` (`src/make_simple_transfers.py` line 353). -/
def fmt_to_course (tc : DestCourse) : String :=
  tc.pfx ++ " " ++ tc.courseNumber ++ ": " ++ tc.courseTitle

/-- The double loop over `sendingArticulation.items`: each item holding a
nested `items` key contributes the formatted destination courses of that
nested list, in order; items without the key are skipped. -/
def collect_transfers_to (items : List SAItem) : List String :=
  items.flatMap fun it =>
    match it.items with
    | some l => l.map fmt_to_course
    | none => []

/-- The `transfers_to` value of one emitted entry, from the truthiness
test `course.get("sendingArticulation") and
course["sendingArticulation"].get("items")` and the fallback
`transfers_to if transfers_to else ["No equivalent course"]`. -/
def mk_transfers_to (e : ArticulationEntry) : List String :=
  match e.sendingArticulation with
  | some sa =>
    match sa.items with
    | some its =>
      if its.isEmpty then ["No equivalent course"]
      else
        let ts := collect_transfers_to its
        if ts.isEmpty then ["No equivalent course"] else ts
    | none => ["No equivalent course"]
  | none => ["No equivalent course"]

/-- Construction of the transfer record for one qualifying articulation
entry (`src/make_simple_transfers.py` lines 338 to 356). -/
def mkTransfer (e : ArticulationEntry) : TransferOut :=
  { from_course := e.course.pfx ++ " " ++ e.course.courseNumber
  , course_title := e.course.courseTitle
  , units :=
      match e.course.minUnits with
      | some v => PyUnits.uval v
      | none => PyUnits.na
  , department := e.course.department
  , transfers_to := mk_transfers_to e }

/-- The transfers-building double loop of `get_transfer_data`
(`src/make_simple_transfers.py` lines 335 to 358): iterate department
groups, then articulation entries, appending a transfer record exactly
for entries whose `type` equals `"Course"`. -/
def extract_transfers (arts : List DeptGroup) : List TransferOut :=
  arts.flatMap fun dept =>
    dept.articulations.filterMap fun course =>
      if course.type = "Course" then some (mkTransfer course) else none

/-- One name record of an institution object (`names` list entries); the
`name` field is read with bracket access. -/
structure InstName where
  name : String
deriving DecidableEq

/-- A decoded institution object of the articulation agreement (the
`receivingInstitution` and `sendingInstitution` payloads after their
second JSON decode). -/
structure Institution where
  names : List InstName
deriving DecidableEq

/-- The decoded `academicYear` payload of the articulation agreement;
its `code` field is read with bracket access. -/
structure AcademicYearA where
  code : String
deriving DecidableEq

/-- The `result` object of the articulation response.  In the wire
format its four fields are JSON-encoded strings; they are modelled here
after the second `json.loads` pass the source performs on each. -/
structure AgreementResult where
  receivingInstitution : Institution
  sendingInstitution : Institution
  academicYear : AcademicYearA
  articulations : List DeptGroup
deriving DecidableEq

/-- The raw articulation response body. -/
structure RawAgreement where
  result : AgreementResult
deriving DecidableEq

/-- The normalized articulation output document. -/
structure SimpleData where
  from_college : String
  to_college : String
  academic_year : String
  transfers : List TransferOut
deriving DecidableEq

/-- Outcome of the single HTTP GET of the articulation path: either a
parsed body, or a request failure (network error, timeout, or the
non-2xx status surfaced by `raise_for_status`) carrying its message. -/
inductive FetchOutcome where
  | success (d : RawAgreement)
  | failure (emsg : String)
deriving DecidableEq

/-- Python exceptions that can escape the articulation transformer and
the directory transformer in this model. -/
inductive PyErr where
  | indexError
  | keyMissing (key : String)
deriving DecidableEq

/-- Embedding of `fetch_api_data` from `src/make_simple_transfers.py`
lines 299 to 307: a request failure is caught, reported as a printed
message, and turned into an absent result instead of propagating.  The
first component is the sequence of printed lines. -/
def fetch_api_data (fo : FetchOutcome) : List String × Option RawAgreement :=
  match fo with
  | .success d => ([], some d)
  | .failure e => (["Error fetching data: " ++ e], none)

/-- Construction of the `simple_data` document from the decoded result
(`src/make_simple_transfers.py` lines 320 to 358).  The bracket access
`names[0]` raises an IndexError when a `names` list is empty. -/
def build_simple_data (r : AgreementResult) : Except PyErr SimpleData :=
  match r.sendingInstitution.names, r.receivingInstitution.names with
  | sn :: _, rn :: _ =>
    .ok { from_college := sn.name
        , to_college := rn.name
        , academic_year := r.academicYear.code
        , transfers := extract_transfers r.articulations }
  | _, _ => .error .indexError

/-- Embedding of `get_transfer_data` from `src/make_simple_transfers.py`
lines 309 to 360: fetch, then transform; a falsy raw result short-circuits
to an absent result.  The first component is the printed lines. -/
def get_transfer_data (fo : FetchOutcome) : List String × Option (Except PyErr SimpleData) :=
  let (msgs, raw) := fetch_api_data fo
  match raw with
  | none => (msgs, none)
  | some d => (msgs, some (build_simple_data d.result))

/-- How one invocation of the articulation entry point ends: a normal
return (process exit status 0) or an uncaught exception. -/
inductive ExitKind where
  | normal
  | raised (e : PyErr)
deriving DecidableEq

/-- Observable outcome of one invocation of the articulation entry
point: the printed lines, the document written to the output file when
one is written, and how the process ends. -/
structure MainOutcome where
  printed : List String
  written : Option SimpleData
  outcome : ExitKind
deriving DecidableEq

/-- Embedding of `main` from `src/make_simple_transfers.py` lines 362 to
378: on an absent transform result it prints a failure message and
returns normally without writing a file; otherwise it writes the
document and prints the two summary lines. -/
def simple_transfers_main (fo : FetchOutcome) : MainOutcome :=
  match get_transfer_data fo with
  | (msgs, none) =>
    { printed := msgs ++ ["Failed to fetch data from API"]
    , written := none
    , outcome := .normal }
  | (msgs, some (.error e)) =>
    { printed := msgs, written := none, outcome := .raised e }
  | (msgs, some (.ok sd)) =>
    { printed := msgs
        ++ ["Created simple_transfers.json with "
              ++ toString sd.transfers.length ++ " courses"]
        ++ [sd.from_college ++ " → " ++ sd.to_college]
    , written := some sd
    , outcome := .normal }

/-- One raw institution record of the directory endpoint
(`src/get_institutions.py`).  `names` is read with `dict.get` and tested
for truthiness, so `none` covers absent and null; `id` is read with
bracket access and a property concerns its absence, so it is an `Option`
whose `none` case raises. -/
structure InstRecord where
  names : Option (List InstName)
  id : Option Nat
deriving DecidableEq

/-- One record of the directory output schema. -/
structure ParsedSchool where
  schoolName : Option String
  code : Nat
deriving DecidableEq

/-- Embedding of the comprehension body in `main` of
`src/get_institutions.py` lines 273 to 279: `schoolName` is the first
name when `names` is truthy (present and non-empty), null otherwise;
`code` is the required `id` field, whose absence raises (KeyError in
Python, named KeyMissingError by the specification). -/
def parse_institution (inst : InstRecord) : Except PyErr ParsedSchool :=
  let schoolName : Option String :=
    match inst.names with
    | some (n :: _) => some n.name
    | some [] => none
    | none => none
  match inst.id with
  | some i => .ok { schoolName := schoolName, code := i }
  | none => .error (.keyMissing "id")

/-- The whole comprehension of `src/get_institutions.py`: the first
record whose `id` is absent aborts the transform. -/
def parse_institutions (l : List InstRecord) : Except PyErr (List ParsedSchool) :=
  l.mapM parse_institution

theorem head_dropWhile_not (p : Char → Bool) :
    ∀ (l : List Char) (c : Char), (l.dropWhile p).head? = some c → p c = false := by
  intro l
  induction l with
  | nil =>
    intro c h
    simp [List.dropWhile] at h
  | cons a t ih =>
    intro c h
    by_cases hp : p a = true
    · rw [List.dropWhile_cons_of_pos hp] at h
      exact ih c h
    · rw [List.dropWhile_cons_of_neg hp] at h
      simp at h
      rw [← h]
      simpa using hp

theorem pyStrip_head_not (p : Char → Bool) (s : String) (c : Char)
    (h : (pyStrip p s).data.head? = some c) : p c = false :=
  head_dropWhile_not p _ c h

theorem pyStrip_spaceOrDash_ne (s : String) : pyStrip spaceOrDash s ≠ " - " := by
  intro h
  have hh : (pyStrip spaceOrDash s).data.head? = some ' ' := by
    rw [h]
    rfl
  have := pyStrip_head_not spaceOrDash s ' ' hh
  simp [spaceOrDash] at this

/-- C1 (counterexample): the string "2024-01-01T00:00:00+00:00" is an
ISO-8601 date-time that Python 3.9 `fromisoformat` parses successfully —
to an offset-aware value — and its instant lies strictly after the 2020
clock reading; the claim therefore requires the rule to return true, but
the source raises an uncaught TypeError from the naive-versus-aware
comparison instead of returning a boolean. -/
theorem c1_counterexample :
    datetime_fromisoformat "2024-01-01T00:00:00+00:00"
        = some ⟨⟨2024, 1, 1, 0, 0, 0, 0⟩, some 0⟩
    ∧ DateTime.lt ⟨2020, 1, 1, 0, 0, 0, 0⟩ ⟨2024, 1, 1, 0, 0, 0, 0⟩ = true
    ∧ is_currently_approved (some "2024-01-01T00:00:00+00:00")
        ⟨2020, 1, 1, 0, 0, 0, 0⟩ = ApprovalOutcome.typeError
    ∧ ApprovalOutcome.typeError ≠ ApprovalOutcome.ret true := by
  refine ⟨rfl, rfl, rfl, by decide⟩

/-- C1 (amended): the approval rule returns true on an absent or empty
end-date string; on a non-empty string that parses as a timezone-naive
ISO-8601 date or date-time it returns true exactly when the parsed
instant is strictly after `now`; on a string that parses to an
offset-aware date-time the naive-versus-aware comparison raises an
uncaught TypeError instead of returning; and on a string that fails to
parse it returns false. -/
theorem c1_is_currently_approved_cases (eds : Option String) (now : DateTime) :
    (eds = none → is_currently_approved eds now = ApprovalOutcome.ret true)
    ∧ (eds = some "" → is_currently_approved eds now = ApprovalOutcome.ret true)
    ∧ ∀ s, eds = some s → s ≠ "" →
        ((∀ dt, datetime_fromisoformat s = some ⟨dt, none⟩ →
            (is_currently_approved eds now = ApprovalOutcome.ret true
              ↔ DateTime.lt now dt = true))
          ∧ (∀ dt off, datetime_fromisoformat s = some ⟨dt, some off⟩ →
              is_currently_approved eds now = ApprovalOutcome.typeError)
          ∧ (datetime_fromisoformat s = none →
              is_currently_approved eds now = ApprovalOutcome.ret false)) := by
  refine ⟨?_, ?_, ?_⟩
  · intro h
    subst h
    rfl
  · intro h
    subst h
    rfl
  · intro s hs hne
    subst hs
    refine ⟨?_, ?_, ?_⟩
    · intro dt hdt
      simp [is_currently_approved, hne, hdt]
    · intro dt off hdt
      simp [is_currently_approved, hne, hdt]
    · intro hdt
      simp [is_currently_approved, hne, hdt]

theorem c1_witness :
    (is_currently_approved (some "2999-01-01") ⟨2024, 1, 1, 0, 0, 0, 0⟩
        = ApprovalOutcome.ret true
      ↔ DateTime.lt ⟨2024, 1, 1, 0, 0, 0, 0⟩ ⟨2999, 1, 1, 0, 0, 0, 0⟩ = true)
    ∧ is_currently_approved (some "2030-06-15T08:30:00-07:00")
        ⟨2024, 1, 1, 0, 0, 0, 0⟩ = ApprovalOutcome.typeError
    ∧ is_currently_approved (some "not-a-date") ⟨2024, 1, 1, 0, 0, 0, 0⟩
        = ApprovalOutcome.ret false
    ∧ is_currently_approved none ⟨2024, 1, 1, 0, 0, 0, 0⟩
        = ApprovalOutcome.ret true
    ∧ is_currently_approved (some "") ⟨2024, 1, 1, 0, 0, 0, 0⟩
        = ApprovalOutcome.ret true := by
  refine ⟨?_, ?_, ?_, ?_, ?_⟩
  · exact ((c1_is_currently_approved_cases (some "2999-01-01")
        ⟨2024, 1, 1, 0, 0, 0, 0⟩).2.2 "2999-01-01" rfl (by decide)).1
      ⟨2999, 1, 1, 0, 0, 0, 0⟩ (by rfl)
  · exact ((c1_is_currently_approved_cases (some "2030-06-15T08:30:00-07:00")
        ⟨2024, 1, 1, 0, 0, 0, 0⟩).2.2 "2030-06-15T08:30:00-07:00" rfl
        (by decide)).2.1 ⟨2030, 6, 15, 8, 30, 0, 0⟩ (-25200) (by rfl)
  · exact ((c1_is_currently_approved_cases (some "not-a-date")
        ⟨2024, 1, 1, 0, 0, 0, 0⟩).2.2 "not-a-date" rfl (by decide)).2.2 (by rfl)
  · exact (c1_is_currently_approved_cases none ⟨2024, 1, 1, 0, 0, 0, 0⟩).1 rfl
  · exact (c1_is_currently_approved_cases (some "")
        ⟨2024, 1, 1, 0, 0, 0, 0⟩).2.1 rfl

/-- C4: the claim asserts the approval rule takes `now` as an injectable
parameter and the transform is therefore deterministic per raw input.
The source instead calls `datetime.utcnow()` inside the rule
(`src/IGETC.py` line 48, `src/calgetc.py` line 51), so on a fixed raw
document the result varies with the wall clock: the same end date
evaluated at a 2023 clock reading and at a 2025 clock reading differs. -/
theorem c4_clock_dependence :
    is_currently_approved (some "2024-01-01") ⟨2023, 6, 1, 0, 0, 0, 0⟩
        = ApprovalOutcome.ret true
    ∧ is_currently_approved (some "2024-01-01") ⟨2025, 6, 1, 0, 0, 0, 0⟩
        = ApprovalOutcome.ret false := by
  constructor
  · rfl
  · rfl

/-- Raw course record holding only an identifier and a title; used for
the concrete formatting cases. -/
def mkIdTitle (i t : Option String) : RawCourse :=
  { identifier := i
  , courseTitle := t
  , transferAreas := none
  , beginDate := none
  , beginTermCode := none
  , endDate := none
  , endTermCode := none }

/-- C3: the normalized course field is the identifier and title each
trimmed of surrounding whitespace, joined by " - ", with any leading or
trailing run of spaces and hyphens then stripped; the listed concrete
cases hold and the result is never the bare string " - ". -/
theorem c3_course_name (now : DateTime) (c : RawCourse) :
    (normalize_course now c).course
      = pyStrip spaceOrDash
          (pyStrip wsChar (orEmpty c.identifier) ++ " - "
            ++ pyStrip wsChar (orEmpty c.courseTitle))
    ∧ (normalize_course now c).course ≠ " - "
    ∧ (normalize_course now (mkIdTitle (some "MATH 100") (some ""))).course
        = "MATH 100"
    ∧ (normalize_course now (mkIdTitle (some "") (some "Calculus"))).course
        = "Calculus"
    ∧ (normalize_course now (mkIdTitle (some "") (some ""))).course = "" := by
  refine ⟨rfl, ?_, ?_, ?_, ?_⟩
  · exact pyStrip_spaceOrDash_ne _
  · rfl
  · rfl
  · rfl

theorem c3_witness :
    (normalize_course ⟨2024, 1, 1, 0, 0, 0, 0⟩
        (mkIdTitle (some "MATH 100") none)).course ≠ " - " :=
  (c3_course_name ⟨2024, 1, 1, 0, 0, 0, 0⟩ (mkIdTitle (some "MATH 100") none)).2.1

/-- C5: the normalized transferAreas sequence selects the `code` field of
each transfer-area entry in order, dropping entries whose code is falsy
(absent, null, or the empty string); hence no element of the output
derives from an absent code and the listed example holds. -/
theorem c5_transfer_areas (now : DateTime) (c : RawCourse) :
    (c.transferAreas = none → (normalize_course now c).transferAreas = [])
    ∧ (∀ l, c.transferAreas = some l →
        (normalize_course now c).transferAreas
          = l.filterMap fun a =>
              match a.code with
              | some s => if s = "" then none else some s
              | none => none)
    ∧ (∀ s ∈ (normalize_course now c).transferAreas,
        s ≠ "" ∧ ∃ l, c.transferAreas = some l ∧ ∃ a ∈ l, a.code = some s)
    ∧ (normalize_course now
          (mkIdTitle none none)).transferAreas = []
    ∧ (normalize_course now
        { mkIdTitle none none with
            transferAreas := some [⟨some "A1"⟩, ⟨none⟩, ⟨some "B2"⟩] }).transferAreas
      = ["A1", "B2"] := by
  refine ⟨?_, ?_, ?_, rfl, rfl⟩
  · intro h
    simp [normalize_course, h]
  · intro l h
    simp [normalize_course, h]
  · intro s hs
    rcases hl : c.transferAreas with _ | l
    · simp [normalize_course, hl] at hs
    · simp only [normalize_course, hl] at hs
      rcases List.mem_filterMap.mp hs with ⟨a, ha, hfa⟩
      rcases hc : a.code with _ | t
      · simp [hc] at hfa
      · rw [hc] at hfa
        by_cases ht : t = ""
        · simp [ht] at hfa
        · simp [ht] at hfa
          subst hfa
          exact ⟨ht, l, rfl, a, ha, hc⟩

theorem c5_witness :
    (normalize_course ⟨2024, 1, 1, 0, 0, 0, 0⟩
        { mkIdTitle none none with
            transferAreas := some [⟨some "A1"⟩, ⟨none⟩, ⟨some "B2"⟩] }).transferAreas
      = [⟨some "A1"⟩, ⟨none⟩, (⟨some "B2"⟩ : TransferArea)].filterMap
          (fun a =>
            match a.code with
            | some s => if s = "" then none else some s
            | none => none) :=
  ((c5_transfer_areas ⟨2024, 1, 1, 0, 0, 0, 0⟩
      { mkIdTitle none none with
          transferAreas := some [⟨some "A1"⟩, ⟨none⟩, ⟨some "B2"⟩] }).2.1)
    [⟨some "A1"⟩, ⟨none⟩, ⟨some "B2"⟩] rfl

/-- C7: the GE-list transformer is total and degrades gracefully: an
absent or null raw course list yields an empty courses sequence, and
absent top-level metadata fields yield null output fields, with no
failure path. -/
theorem c7_missing_fields (now : DateTime) (d : RawDoc) :
    ((d.courseInformationList = none ∨ d.courseInformationList = some none) →
        (get_csu_ge_courses now d).courses = [])
    ∧ (d.institutionName = none →
        (get_csu_ge_courses now d).institutionName = none)
    ∧ ((d.academicYear = none ∨ d.academicYear = some none) →
        (get_csu_ge_courses now d).academicYear = none)
    ∧ (∀ ay, d.academicYear = some (some ay) → ay.code = none →
        (get_csu_ge_courses now d).academicYear = none)
    ∧ (d.listType = none → (get_csu_ge_courses now d).listType = none) := by
  refine ⟨?_, ?_, ?_, ?_, ?_⟩
  · rintro (h | h) <;> simp [get_csu_ge_courses, h]
  · intro h
    simp [get_csu_ge_courses, h]
  · rintro (h | h) <;> simp [get_csu_ge_courses, h]
  · intro ay h hc
    simp [get_csu_ge_courses, h, hc]
  · intro h
    simp [get_csu_ge_courses, h]

theorem c7_witness :
    (get_csu_ge_courses ⟨2024, 1, 1, 0, 0, 0, 0⟩
        ⟨none, none, none, none⟩).courses = []
    ∧ (get_csu_ge_courses ⟨2024, 1, 1, 0, 0, 0, 0⟩
        ⟨none, none, none, none⟩).institutionName = none
    ∧ (get_csu_ge_courses ⟨2024, 1, 1, 0, 0, 0, 0⟩
        ⟨none, none, none, none⟩).academicYear = none
    ∧ (get_csu_ge_courses ⟨2024, 1, 1, 0, 0, 0, 0⟩
        ⟨none, none, none, none⟩).listType = none := by
  have h := c7_missing_fields ⟨2024, 1, 1, 0, 0, 0, 0⟩ ⟨none, none, none, none⟩
  exact ⟨h.1 (Or.inl rfl), h.2.1 rfl, h.2.2.1 (Or.inl rfl), h.2.2.2.2 rfl⟩

theorem extract_transfers_eq (arts : List DeptGroup) :
    extract_transfers arts
      = arts.flatMap (fun d =>
          (d.articulations.filter (fun x => x.type = "Course")).map mkTransfer) := by
  have h : ∀ l : List ArticulationEntry,
      (l.filterMap fun course =>
          if course.type = "Course" then some (mkTransfer course) else none)
        = (l.filter (fun x => x.type = "Course")).map mkTransfer := by
    intro l
    induction l with
    | nil => rfl
    | cons a t ih => by_cases ha : a.type = "Course" <;> simp [ha, ih]
  unfold extract_transfers
  simp only [h]

theorem mk_transfers_to_spec (e : ArticulationEntry) :
    ((e.sendingArticulation = none
        ∨ (∃ sa, e.sendingArticulation = some sa ∧ sa.items = none)
        ∨ (∃ sa its, e.sendingArticulation = some sa ∧ sa.items = some its
            ∧ collect_transfers_to its = [])) →
      mk_transfers_to e = ["No equivalent course"])
    ∧ (∀ sa its, e.sendingArticulation = some sa → sa.items = some its →
        collect_transfers_to its ≠ [] →
        mk_transfers_to e = collect_transfers_to its) := by
  constructor
  · rintro (h | ⟨sa, hsa, hit⟩ | ⟨sa, its, hsa, hit, hc⟩)
    · simp [mk_transfers_to, h]
    · simp [mk_transfers_to, hsa, hit]
    · by_cases hi : its.isEmpty <;>
        simp [mk_transfers_to, hsa, hit, hi, hc]
  · intro sa its hsa hit hc
    have hne : its ≠ [] := by
      intro h0
      apply hc
      rw [h0]
      rfl
    simp [mk_transfers_to, hsa, hit, List.isEmpty_iff, hne, hc]

theorem mk_transfers_to_ne_nil (e : ArticulationEntry) :
    mk_transfers_to e ≠ [] := by
  rcases hsa : e.sendingArticulation with _ | sa
  · simp [mk_transfers_to, hsa]
  · rcases hit : sa.items with _ | its
    · simp [mk_transfers_to, hsa, hit]
    · by_cases hi : its.isEmpty
      · simp [mk_transfers_to, hsa, hit, hi]
      · by_cases hc : (collect_transfers_to its).isEmpty
        · simp [mk_transfers_to, hsa, hit, hi, hc]
        · have hc2 : collect_transfers_to its ≠ [] := by
            simpa [List.isEmpty_iff] using hc
          simp [mk_transfers_to, hsa, hit, hi, List.isEmpty_iff, hc2]

/-- Sample course object used in the concrete articulation inputs. -/
def ciSample : CourseInfo :=
  { pfx := "MATH"
  , courseNumber := "1A"
  , courseTitle := "Calculus"
  , minUnits := some (some 4)
  , department := "Mathematics" }

/-- Entry whose sending articulation holds one item carrying a present
but empty nested items list. -/
def cexEntry : ArticulationEntry :=
  { type := "Course"
  , course := ciSample
  , sendingArticulation := some ⟨some [⟨some []⟩]⟩ }

/-- Entry with no sending articulation. -/
def entryNoSA : ArticulationEntry :=
  { type := "Course", course := ciSample, sendingArticulation := none }

/-- One destination course. -/
def destCS : DestCourse :=
  { pfx := "CS", courseNumber := "101", courseTitle := "Intro" }

/-- Entry whose sending articulation yields one destination course. -/
def entryWithSA : ArticulationEntry :=
  { type := "Course"
  , course := ciSample
  , sendingArticulation := some ⟨some [⟨some [destCS]⟩]⟩ }

/-- C2 (counterexample): an emitted entry whose single sending item
carries a present but empty nested items list.  None of the claim's
three sentinel conditions holds — the sending articulation is present,
its items list is non-empty, and the item does not lack a nested items
list — so the claim requires transfers_to to equal the (empty) sequence
collected from the nested items; the code instead yields the sentinel. -/
theorem c2_counterexample :
    extract_transfers [⟨[cexEntry]⟩] = [mkTransfer cexEntry]
    ∧ cexEntry.sendingArticulation = some ⟨some [⟨some []⟩]⟩
    ∧ (∃ it, it ∈ [(⟨some []⟩ : SAItem)] ∧ it.items ≠ none)
    ∧ collect_transfers_to [⟨some []⟩] = []
    ∧ (mkTransfer cexEntry).transfers_to = ["No equivalent course"]
    ∧ ["No equivalent course"] ≠ collect_transfers_to [⟨some []⟩] := by
  refine ⟨rfl, rfl, ⟨⟨some []⟩, by simp, by simp⟩, rfl, rfl, by decide⟩

/-- C2 (amended): the transformer emits a transfer entry exactly for
articulation entries whose type equals "Course", and an emitted entry's
transfers_to is the sentinel ["No equivalent course"] when the sending
articulation is absent, or its items list is absent or empty, or the
nested items lists collect no destination strings; otherwise it is the
non-empty sequence of destination strings collected in order. -/
theorem c2_amended_transfers (arts : List DeptGroup) (e : ArticulationEntry) :
    extract_transfers arts
      = arts.flatMap (fun d =>
          (d.articulations.filter (fun x => x.type = "Course")).map mkTransfer)
    ∧ ((e.sendingArticulation = none
          ∨ (∃ sa, e.sendingArticulation = some sa ∧ sa.items = none)
          ∨ (∃ sa its, e.sendingArticulation = some sa ∧ sa.items = some its
              ∧ collect_transfers_to its = [])) →
        (mkTransfer e).transfers_to = ["No equivalent course"])
    ∧ (∀ sa its, e.sendingArticulation = some sa → sa.items = some its →
        collect_transfers_to its ≠ [] →
        (mkTransfer e).transfers_to = collect_transfers_to its) :=
  ⟨extract_transfers_eq arts, (mk_transfers_to_spec e).1, (mk_transfers_to_spec e).2⟩

theorem c2_witness :
    (mkTransfer entryNoSA).transfers_to = ["No equivalent course"]
    ∧ (mkTransfer entryWithSA).transfers_to = ["CS 101: Intro"] := by
  constructor
  · exact (c2_amended_transfers [] entryNoSA).2.1 (Or.inl rfl)
  · have h := (c2_amended_transfers [] entryWithSA).2.2 ⟨some [⟨some [destCS]⟩]⟩
      [⟨some [destCS]⟩] rfl rfl (by decide)
    rw [h]
    rfl

theorem mem_extract_transfers (arts : List DeptGroup) (t : TransferOut)
    (h : t ∈ extract_transfers arts) :
    ∃ e : ArticulationEntry, e.type = "Course" ∧ t = mkTransfer e := by
  unfold extract_transfers at h
  rcases List.mem_flatMap.mp h with ⟨d, _, ht⟩
  rcases List.mem_filterMap.mp ht with ⟨e, _, hfe⟩
  by_cases hty : e.type = "Course"
  · rw [if_pos hty] at hfe
    exact ⟨e, hty, (Option.some.inj hfe).symm⟩
  · rw [if_neg hty] at hfe
    cases hfe

/-- C6: every emitted transfer entry has from_course equal to the
course object's letters and number joined by a space, and its units
value is the string sentinel "N/A" exactly when the minUnits key is
absent from the source; a present value — a number or a null — is passed
through, and the sentinel is distinct from a numeric zero and from null. -/
theorem c6_from_course_and_units (arts : List DeptGroup) (t : TransferOut)
    (h : t ∈ extract_transfers arts) :
    ∃ e : ArticulationEntry, t = mkTransfer e ∧ e.type = "Course"
      ∧ t.from_course = e.course.pfx ++ " " ++ e.course.courseNumber
      ∧ (e.course.minUnits = none → t.units = PyUnits.na)
      ∧ (∀ v, e.course.minUnits = some v → t.units = PyUnits.uval v)
      ∧ PyUnits.na ≠ PyUnits.uval (some 0)
      ∧ PyUnits.na ≠ PyUnits.uval none := by
  rcases mem_extract_transfers arts t h with ⟨e, hty, hte⟩
  subst hte
  refine ⟨e, rfl, hty, rfl, ?_, ?_, by decide, by decide⟩
  · intro h0
    simp [mkTransfer, h0]
  · intro v hv
    simp [mkTransfer, hv]

theorem c6_witness :
    ∃ e : ArticulationEntry, mkTransfer entryWithSA = mkTransfer e
      ∧ e.type = "Course"
      ∧ (mkTransfer entryWithSA).from_course
          = e.course.pfx ++ " " ++ e.course.courseNumber
      ∧ (e.course.minUnits = none → (mkTransfer entryWithSA).units = PyUnits.na)
      ∧ (∀ v, e.course.minUnits = some v →
          (mkTransfer entryWithSA).units = PyUnits.uval v)
      ∧ PyUnits.na ≠ PyUnits.uval (some 0)
      ∧ PyUnits.na ≠ PyUnits.uval none :=
  c6_from_course_and_units [⟨[entryWithSA]⟩] (mkTransfer entryWithSA) (by decide)

/-- C10: every emitted transfer entry carries a non-empty transfers_to
sequence: either the single-element sentinel or the non-empty collected
sequence of destination-course strings. -/
theorem c10_transfers_to_nonempty (arts : List DeptGroup) (t : TransferOut)
    (h : t ∈ extract_transfers arts) :
    t.transfers_to ≠ []
    ∧ (t.transfers_to = ["No equivalent course"]
        ∨ ∃ e sa its, t = mkTransfer e ∧ e.sendingArticulation = some sa
            ∧ sa.items = some its ∧ t.transfers_to = collect_transfers_to its
            ∧ collect_transfers_to its ≠ []) := by
  rcases mem_extract_transfers arts t h with ⟨e, _, hte⟩
  subst hte
  refine ⟨mk_transfers_to_ne_nil e, ?_⟩
  rcases hsa : e.sendingArticulation with _ | sa
  · exact Or.inl ((mk_transfers_to_spec e).1 (Or.inl hsa))
  · rcases hit : sa.items with _ | its
    · exact Or.inl ((mk_transfers_to_spec e).1 (Or.inr (Or.inl ⟨sa, hsa, hit⟩)))
    · by_cases hc : collect_transfers_to its = []
      · exact Or.inl ((mk_transfers_to_spec e).1
          (Or.inr (Or.inr ⟨sa, its, hsa, hit, hc⟩)))
      · exact Or.inr ⟨e, sa, its, rfl, hsa, hit,
          (mk_transfers_to_spec e).2 sa its hsa hit hc, hc⟩

theorem c10_witness :
    (mkTransfer entryNoSA).transfers_to ≠ []
    ∧ ((mkTransfer entryNoSA).transfers_to = ["No equivalent course"]
        ∨ ∃ e sa its, mkTransfer entryNoSA = mkTransfer e
            ∧ e.sendingArticulation = some sa
            ∧ sa.items = some its
            ∧ (mkTransfer entryNoSA).transfers_to = collect_transfers_to its
            ∧ collect_transfers_to its ≠ []) :=
  c10_transfers_to_nonempty [⟨[entryNoSA]⟩] (mkTransfer entryNoSA) (by decide)

/-- C8: in the articulation path a failed fetch is caught inside the
fetcher, reported as a printed message, and turned into an absent
result; the entry point then prints its failure line and returns
normally — exit status 0, no output file written. -/
theorem c8_articulation_fetch_failure (e : String) :
    fetch_api_data (FetchOutcome.failure e)
      = (["Error fetching data: " ++ e], none)
    ∧ simple_transfers_main (FetchOutcome.failure e)
        = { printed := ["Error fetching data: " ++ e,
              "Failed to fetch data from API"]
          , written := none
          , outcome := ExitKind.normal } :=
  ⟨rfl, rfl⟩

/-- C9: the directory transformer takes schoolName from the first entry
of the names list, null when that list is absent or empty; code is the
required id field, and a record without an id aborts the transform with
the key-missing failure instead of defaulting. -/
theorem c9_parse_institution (inst : InstRecord) :
    ((inst.names = none ∨ inst.names = some []) → ∀ i, inst.id = some i →
        parse_institution inst = Except.ok ⟨none, i⟩)
    ∧ (∀ n rest, inst.names = some (n :: rest) → ∀ i, inst.id = some i →
        parse_institution inst = Except.ok ⟨some n.name, i⟩)
    ∧ (inst.id = none →
        parse_institution inst = Except.error (PyErr.keyMissing "id")) := by
  refine ⟨?_, ?_, ?_⟩
  · rintro (h | h) i hi <;> simp [parse_institution, h, hi]
  · intro n rest h i hi
    simp [parse_institution, h, hi]
  · intro h
    rcases hn : inst.names with _ | l <;> simp [parse_institution, hn, h]

theorem c9_witness :
    parse_institution ⟨some [⟨"De Anza College"⟩], some 113⟩
        = Except.ok ⟨some "De Anza College", 113⟩
    ∧ parse_institution ⟨none, some 7⟩ = Except.ok ⟨none, 7⟩
    ∧ parse_institution ⟨some [⟨"Foothill College"⟩], none⟩
        = Except.error (PyErr.keyMissing "id") := by
  refine ⟨?_, ?_, ?_⟩
  · exact (c9_parse_institution ⟨some [⟨"De Anza College"⟩], some 113⟩).2.1
      ⟨"De Anza College"⟩ [] rfl 113 rfl
  · exact (c9_parse_institution ⟨none, some 7⟩).1 (Or.inl rfl) 7 rfl
  · exact (c9_parse_institution ⟨some [⟨"Foothill College"⟩], none⟩).2.2 rfl
